import Mathlib

/-!
Shallow embedding of `src/examples/CH_09/examples/05/app/models.py`:
the persistence model of the MyBlog tutorial application (a `User` entity
with password hashing and confirmation/reset tokens, a `Role` lookup table
seeded idempotently, and a database-session context manager).

Modelling conventions:
  * Python exceptions are `Except PyError`; an uncaught exception is an
    `Except.error` value threaded out of the function.
  * Time is `Nat` seconds (for the reset tokens, mirroring `time.time()`)
    or an abstract `Nat` instant (for the timed serializer); machine clock
    reads become explicit `now` parameters.
  * The external signing libraries (`itsdangerous.URLSafeTimedSerializer`,
    `jwt` with HS256) are modelled abstractly: a token records its payload,
    its timestamp (or expiry claim) and the key it was signed with, and
    verification succeeds exactly when the keys agree and the token is not
    older than the allowed age (resp. the expiry claim has not passed).
  * `flask_bcrypt` hashing is modelled as an idealized collision-free
    one-way function: the stored hash determines the password uniquely,
    reflecting the library contract that `check_password_hash` accepts
    exactly the original password.
  * The shared `db.session` is a `Session` record: the committed role
    table, the list of user ids staged via `session.add`, a commit
    counter, and rollback/closed flags.
  * Fresh primary keys produced by `get_uuid` (random `uuid4().hex`
    values) are passed in as explicit string parameters.
-/

/-- Python exception classes that the modelled code can raise. -/
inductive PyError where
  | typeError
  | attributeError
  deriving Repr, DecidableEq

/-- The slice of `current_app.config` the model reads:
`SECRET_KEY` (present, a string) and `CONFIRMATION_LINK_TIMEOUT`, read
with `.get` and therefore possibly absent (`none` models a missing key,
Python `None`). -/
structure Config where
  secretKey : String
  confirmationLinkTimeout : Option Nat
  deriving Repr, DecidableEq

/-- A row of the `role` table (the timestamp columns are modelled
separately by `updatedColumnOnUpdate`). -/
structure RoleRow where
  role_uid : String
  name : String
  description : String
  raw_permissions : Nat
  deriving Repr, DecidableEq

/-- The shared `db.session` state. -/
structure Session where
  roleRows : List RoleRow
  stagedUsers : List String
  commits : Nat
  rolledBack : Bool
  closed : Bool
  deriving Repr, DecidableEq

/-- `db.session.rollback()`. -/
def rollbackSession (s : Session) : Session := { s with rolledBack := true }

/-- `db.session.close()`. -/
def closeSession (s : Session) : Session := { s with closed := true }

/-- `db.session.commit()`: one unit of work made durable. -/
def commitSession (s : Session) : Session := { s with commits := s.commits + 1 }

/-- `db.session.add(user)`: stage a user row (identified by its uid). -/
def sessionAddUser (uid : String) (s : Session) : Session :=
  { s with stagedUsers := s.stagedUsers ++ [uid] }

/-- The `session_close` parameter of `db_session_manager` defaults to
`True` in the source. -/
def db_session_manager_session_close_default : Bool := true

/-- `db_session_manager(session_close=True)` from `models.py`: yields the
shared session to `body`; if the body raises, rolls the session back and
re-raises the same exception; in all cases closes the session exactly when
`session_close` is true. The body is a state transformer returning a
Python-style result (`Except.error` = an exception escaping the scope). -/
def db_session_manager {α : Type} (session_close : Bool)
    (body : Session → Except PyError α × Session) (s : Session) :
    Except PyError α × Session :=
  let r := body s
  let s1 := match r.1 with
    | Except.error _ => rollbackSession r.2
    | Except.ok _ => r.2
  (r.1, if session_close then closeSession s1 else s1)

/-- A row of the `user` table. `hashed_password` is the column named
`password` in the schema; `created` and `updated` are `Nat` instants. -/
structure User where
  user_uid : String
  role_uid : String
  first_name : String
  last_name : String
  email : String
  hashed_password : String
  active : Bool
  confirmed : Bool
  created : Nat
  updated : Nat
  deriving Repr, DecidableEq

/-- `flask_bcrypt.generate_password_hash`, idealized: an injective one-way
function (the salt-and-digest encoding is abstracted into a tag character
prepended to the password's character data, which makes collision-freeness
provable; the real library guarantees that verification accepts exactly
the hashed password). -/
def generate_password_hash (password : String) : String :=
  String.mk (Char.ofNat 36 :: password.data)

/-- `flask_bcrypt.check_password_hash`: true iff `password` re-hashed
matches the stored hash. -/
def check_password_hash (pw_hash : String) (password : String) : Bool :=
  pw_hash == generate_password_hash password

/-- `User.get_id` (satisfies the flask_login identity contract). -/
def User.get_id (self : User) : String := self.user_uid

/-- Reading the `password` property: always raises `AttributeError`. -/
def User.password_get (_self : User) : Except PyError String :=
  Except.error PyError.attributeError

/-- Assigning the `password` property: stores the bcrypt hash. -/
def User.password_set (self : User) (password : String) : User :=
  { self with hashed_password := generate_password_hash password }

/-- `User.verify_password`. -/
def User.verify_password (self : User) (password : String) : Bool :=
  check_password_hash self.hashed_password password

/-- The payload dict `{"confirm": user_uid}` carried by a confirmation
token. -/
structure ConfPayload where
  confirm : String
  deriving Repr, DecidableEq

/-- A token produced by `URLSafeTimedSerializer.dumps`: the payload, the
signing timestamp embedded by the serializer, and the key it was signed
with (signature validity is modelled as key agreement). -/
structure ConfToken where
  payload : ConfPayload
  issued : Nat
  signedWith : String
  deriving Repr, DecidableEq

/-- The itsdangerous exceptions caught by `confirm_token`. -/
inductive ItsdangerousError where
  | badSignature
  | signatureExpired
  deriving Repr, DecidableEq

/-- `URLSafeTimedSerializer(key).dumps(payload)` at instant `now`. -/
def serializerDumps (key : String) (now : Nat) (p : ConfPayload) : ConfToken :=
  { payload := p, issued := now, signedWith := key }

/-- `URLSafeTimedSerializer(key).loads(token, max_age)` at instant `now`:
`BadSignature` if the key does not match, `SignatureExpired` if the
token's age exceeds `max_age`, otherwise the payload. -/
def serializerLoads (key : String) (now : Nat) (maxAge : Nat) (t : ConfToken) :
    Except ItsdangerousError ConfPayload :=
  if t.signedWith = key then
    if now - t.issued ≤ maxAge then Except.ok t.payload
    else Except.error ItsdangerousError.signatureExpired
  else Except.error ItsdangerousError.badSignature

/-- `User.confirmation_token`: a signed token over `{"confirm": user_uid}`,
stateless. -/
def User.confirmation_token (self : User) (cfg : Config) (now : Nat) : ConfToken :=
  serializerDumps cfg.secretKey now { confirm := self.user_uid }

/-- `User.confirm_token`, inside `db_session_manager()` (default close):
reads `CONFIRMATION_LINK_TIMEOUT` with `.get`, multiplies by `60 * 1000`
(a `TypeError` when the key is absent, since `None * 60` fails before any
token verification), then loads the token with that max age, catching
`SignatureExpired` and `BadSignature` as a `False` result; on a payload
mismatch returns `False`; otherwise sets `confirmed`, stages the row via
`session.add` and returns `True` without committing. The returned pair
carries the boolean result together with the (possibly updated) user. -/
def User.confirm_token (self : User) (cfg : Config) (now : Nat)
    (token : ConfToken) (s : Session) : Except PyError (Bool × User) × Session :=
  db_session_manager db_session_manager_session_close_default (fun db_session =>
    match cfg.confirmationLinkTimeout with
    | none => (Except.error PyError.typeError, db_session)
    | some confirmation_link_timeout =>
      let timeout := confirmation_link_timeout * 60 * 1000
      match serializerLoads cfg.secretKey now timeout token with
      | Except.error _ => (Except.ok (false, self), db_session)
      | Except.ok data =>
        if data.confirm ≠ self.user_uid then (Except.ok (false, self), db_session)
        else
          (Except.ok (true, { self with confirmed := true }),
           sessionAddUser self.user_uid db_session)) s

/-- A token produced by `jwt.encode(..., algorithm="HS256")`: the
`reset_password` claim, the absolute `exp` claim, and the signing key. -/
structure ResetToken where
  reset_password : String
  exp : Nat
  signedWith : String
  deriving Repr, DecidableEq

/-- The jwt exceptions `verify_reset_token` can raise. -/
inductive JwtError where
  | invalidSignature
  | expiredSignature
  deriving Repr, DecidableEq

/-- `jwt.encode({"reset_password": uid, "exp": exp}, key, "HS256")`. -/
def jwt_encode (key : String) (uid : String) (exp : Nat) : ResetToken :=
  { reset_password := uid, exp := exp, signedWith := key }

/-- `jwt.decode(token, key, ["HS256"])` at instant `now`: raises on a key
mismatch or once the `exp` claim has passed; otherwise the claims. -/
def jwt_decode (key : String) (now : Nat) (t : ResetToken) :
    Except JwtError ResetToken :=
  if t.signedWith = key then
    if t.exp < now then Except.error JwtError.expiredSignature
    else Except.ok t
  else Except.error JwtError.invalidSignature

/-- `User.get_reset_token(timeout)`: `timeout *= 60`, then a jwt over
`{"reset_password": user_uid, "exp": time() + timeout}`. -/
def User.get_reset_token (self : User) (cfg : Config) (now : Nat)
    (timeout : Nat) : ResetToken :=
  jwt_encode cfg.secretKey self.user_uid (now + timeout * 60)

/-- `User.verify_reset_token` (static): decode, then project the
`reset_password` claim; any decode failure propagates as a raise. -/
def User.verify_reset_token (cfg : Config) (now : Nat) (token : ResetToken) :
    Except JwtError String :=
  (jwt_decode cfg.secretKey now token).map (fun data => data.reset_password)

/-- `Role.Permissions`, an `enum.Flag` with `auto()` bit values. -/
inductive RolePermissions where
  | REGISTERED
  | EDITOR
  | ADMINISTRATOR
  deriving Repr, DecidableEq

/-- The `.value` of each flag: `auto()` assigns successive powers of two. -/
def RolePermissions.value : RolePermissions → Nat
  | RolePermissions.REGISTERED => 1
  | RolePermissions.EDITOR => 2
  | RolePermissions.ADMINISTRATOR => 4

/-- One entry of the local `roles` list inside `initialize_role_table`. -/
structure RoleSeed where
  name : String
  description : String
  raw_permissions : Nat
  deriving Repr, DecidableEq

/-- One iteration of the seeding loop: query the role by name
(`one_or_none`); if absent, construct a new row (with a fresh
`get_uuid` value passed in as `fresh_uid`); if present, overwrite its
`description` and `raw_permissions` in place; `session.add` the row. -/
def upsertRole (fresh_uid : String) (r : RoleSeed) (db_session : Session) : Session :=
  match db_session.roleRows.find? (fun role => role.name == r.name) with
  | none =>
    { db_session with roleRows := db_session.roleRows ++
        [{ role_uid := fresh_uid, name := r.name, description := r.description,
           raw_permissions := r.raw_permissions }] }
  | some _ =>
    { db_session with roleRows := db_session.roleRows.map (fun role =>
        if role.name == r.name then
          { role with description := r.description, raw_permissions := r.raw_permissions }
        else role) }

/-- `Role.initialize_role_table`: inside `db_session_manager()` (default
close), upsert the three hardcoded roles in order and commit once at the
end. The loop over the local `roles` list is unrolled; `u1 u2 u3` are the
fresh `get_uuid` values a new row would receive. -/
def Role.initialize_role_table (u1 u2 u3 : String) (s : Session) :
    Except PyError Unit × Session :=
  db_session_manager db_session_manager_session_close_default (fun db_session =>
    let db_session := upsertRole u1
      { name := "user", description := "registered user permission",
        raw_permissions := RolePermissions.REGISTERED.value } db_session
    let db_session := upsertRole u2
      { name := "editor",
        description := "user has ability to edit all content and comments",
        raw_permissions :=
          RolePermissions.REGISTERED.value ||| RolePermissions.EDITOR.value } db_session
    let db_session := upsertRole u3
      { name := "admin",
        description := "administrator user with access to all of the application",
        raw_permissions :=
          RolePermissions.REGISTERED.value ||| RolePermissions.EDITOR.value |||
          RolePermissions.ADMINISTRATOR.value } db_session
    (Except.ok (), commitSession db_session)) s

/-- The canonical role table after seeding (uids of the three rows fixed
by whoever inserted them first). -/
def canonicalRoleRows (u1 u2 u3 : String) : List RoleRow :=
  [ { role_uid := u1, name := "user",
      description := "registered user permission", raw_permissions := 1 },
    { role_uid := u2, name := "editor",
      description := "user has ability to edit all content and comments",
      raw_permissions := 3 },
    { role_uid := u3, name := "admin",
      description := "administrator user with access to all of the application",
      raw_permissions := 7 } ]

/-- The `updated` columns of both `user` and `role` are declared with
`onupdate=datetime.now(tz=timezone.utc)`: the call is evaluated once when
`models.py` is imported, so the ORM receives a constant datetime value
(not a callable) and stores that same instant on every later update. This
models the value the column receives when a row mutated at `mutationTime`
is flushed, with `importTime` the module-import instant. -/
def updatedColumnOnUpdate (importTime : Nat) (_mutationTime : Nat) : Nat :=
  importTime

/-! ## Helper lemmas and sample values -/

/-- The idealized bcrypt hash is injective. -/
theorem generate_password_hash_inj {p q : String}
    (h : generate_password_hash p = generate_password_hash q) : p = q := by
  have hd : Char.ofNat 36 :: p.data = Char.ofNat 36 :: q.data := congrArg String.data h
  have h2 : p.data = q.data := (List.cons.injEq _ _ _ _).mp hd |>.2
  cases p
  cases q
  simp_all

/-- Full characterization of `User.confirm_token` by cases on the
configuration and the token. -/
theorem confirm_token_eq (self : User) (cfg : Config) (now : Nat)
    (token : ConfToken) (s : Session) :
    User.confirm_token self cfg now token s =
      match cfg.confirmationLinkTimeout with
      | none => (Except.error PyError.typeError, closeSession (rollbackSession s))
      | some m =>
        if token.signedWith = cfg.secretKey ∧ now - token.issued ≤ m * 60 * 1000 ∧
            token.payload.confirm = self.user_uid then
          (Except.ok (true, { self with confirmed := true }),
           closeSession (sessionAddUser self.user_uid s))
        else (Except.ok (false, self), closeSession s) := by
  cases hc : cfg.confirmationLinkTimeout with
  | none =>
    simp [User.confirm_token, db_session_manager,
      db_session_manager_session_close_default, hc]
  | some m =>
    by_cases h1 : token.signedWith = cfg.secretKey
    · by_cases h2 : now - token.issued ≤ m * 60 * 1000
      · by_cases h3 : token.payload.confirm = self.user_uid
        · simp [User.confirm_token, db_session_manager,
            db_session_manager_session_close_default, serializerLoads, hc, h1, h2, h3]
        · simp [User.confirm_token, db_session_manager,
            db_session_manager_session_close_default, serializerLoads, hc, h1, h2, h3]
      · simp [User.confirm_token, db_session_manager,
          db_session_manager_session_close_default, serializerLoads, hc, h1, h2]
    · simp [User.confirm_token, db_session_manager,
        db_session_manager_session_close_default, serializerLoads, hc, h1]

/-- A sample configuration with a 30-minute confirmation link timeout. -/
def cfg0 : Config := { secretKey := "secret", confirmationLinkTimeout := some 30 }

/-- A sample configuration whose `CONFIRMATION_LINK_TIMEOUT` key is absent. -/
def cfgMissing : Config := { secretKey := "secret", confirmationLinkTimeout := none }

/-- A sample user. -/
def user0 : User :=
  { user_uid := "uid1", role_uid := "r1", first_name := "Doug",
    last_name := "Farrell", email := "doug", hashed_password := "",
    active := true, confirmed := false, created := 0, updated := 0 }

/-- A fresh sample session. -/
def session0 : Session :=
  { roleRows := [], stagedUsers := [], commits := 0,
    rolledBack := false, closed := false }

/-! ## Claims -/

/-- C1: a confirmation token issued by `confirmation_token` whose age
exceeds the configured `CONFIRMATION_LINK_TIMEOUT` converted to
`timeout * 60 * 1000` makes `confirm_token` return false with the user's
`confirmed` flag unchanged (the user value returned is `self` itself). -/
theorem claim_C1_expired_confirmation_token (cfg : Config) (m : Nat)
    (now t0 : Nat) (self : User) (s : Session)
    (hcfg : cfg.confirmationLinkTimeout = some m)
    (hage : now - (User.confirmation_token self cfg t0).issued > m * 60 * 1000) :
    User.confirm_token self cfg now (User.confirmation_token self cfg t0) s =
      (Except.ok (false, self), closeSession s) := by
  have h := confirm_token_eq self cfg now (User.confirmation_token self cfg t0) s
  rw [hcfg] at h
  rw [h]
  have : ¬ (now - (User.confirmation_token self cfg t0).issued ≤ m * 60 * 1000) :=
    Nat.not_le.mpr hage
  simp [this]

/-- C1 witness: a token issued at instant 0, checked at instant 2000000
against a 30-minute timeout (max age 1800000), is rejected and the user
is unchanged. -/
theorem claim_C1_expired_confirmation_token_witness :
    User.confirm_token user0 cfg0 2000000 (User.confirmation_token user0 cfg0 0) session0 =
      (Except.ok (false, user0), closeSession session0) :=
  claim_C1_expired_confirmation_token cfg0 30 2000000 0 user0 session0 rfl (by decide)

/-- C2: setting the `password` property and verifying with the same string
returns true; verifying with any different string returns false (and
`verify_password` is a total boolean function, so it has no side effects
and raises nothing on mismatch). -/
theorem claim_C2_password_roundtrip (u : User) (p q : String) :
    User.verify_password (User.password_set u p) p = true ∧
    (q ≠ p → User.verify_password (User.password_set u p) q = false) := by
  constructor
  · simp [User.verify_password, User.password_set, check_password_hash]
  · intro hne
    simp only [User.verify_password, User.password_set, check_password_hash]
    rw [beq_eq_false_iff_ne]
    intro heq
    exact hne (generate_password_hash_inj heq).symm

/-- C2 witness: concrete round trip for the password "pw1" against the
mismatching candidate "pw2". -/
theorem claim_C2_password_roundtrip_witness :
    User.verify_password (User.password_set user0 "pw1") "pw1" = true ∧
    User.verify_password (User.password_set user0 "pw1") "pw2" = false :=
  ⟨(claim_C2_password_roundtrip user0 "pw1" "pw2").1,
   (claim_C2_password_roundtrip user0 "pw1" "pw2").2 (by decide)⟩

/-- C3: with the timeout configured, `confirm_token` never raises; it
returns true exactly when the token is validly signed, unexpired and
encodes `self.user_uid` — in that case setting `confirmed`, staging the
row in the session and leaving the commit counter untouched — and
returns false (user unchanged) in every other case. -/
theorem claim_C3_confirm_token_bimodal (cfg : Config) (m now : Nat)
    (self : User) (token : ConfToken) (s : Session)
    (hcfg : cfg.confirmationLinkTimeout = some m) :
    (∃ b u2 s2, User.confirm_token self cfg now token s = (Except.ok (b, u2), s2)) ∧
    ((token.signedWith = cfg.secretKey ∧ now - token.issued ≤ m * 60 * 1000 ∧
        token.payload.confirm = self.user_uid) →
      User.confirm_token self cfg now token s =
        (Except.ok (true, { self with confirmed := true }),
         closeSession (sessionAddUser self.user_uid s))) ∧
    (¬ (token.signedWith = cfg.secretKey ∧ now - token.issued ≤ m * 60 * 1000 ∧
        token.payload.confirm = self.user_uid) →
      User.confirm_token self cfg now token s = (Except.ok (false, self), closeSession s)) ∧
    (User.confirm_token self cfg now token s).2.commits = s.commits := by
  have h := confirm_token_eq self cfg now token s
  rw [hcfg] at h
  have h2 : User.confirm_token self cfg now token s =
      (if token.signedWith = cfg.secretKey ∧ now - token.issued ≤ m * 60 * 1000 ∧
          token.payload.confirm = self.user_uid then
        (Except.ok (true, { self with confirmed := true }),
         closeSession (sessionAddUser self.user_uid s))
      else (Except.ok (false, self), closeSession s)) := h
  by_cases hcond : token.signedWith = cfg.secretKey ∧
      now - token.issued ≤ m * 60 * 1000 ∧ token.payload.confirm = self.user_uid
  · rw [if_pos hcond] at h2
    refine ⟨⟨true, _, _, h2⟩, fun _ => h2, fun hn => absurd hcond hn, ?_⟩
    rw [h2]
    simp [closeSession, sessionAddUser]
  · rw [if_neg hcond] at h2
    refine ⟨⟨false, _, _, h2⟩, fun hp => absurd hp hcond, fun _ => h2, ?_⟩
    rw [h2]
    simp [closeSession]

/-- C3 witness: a fresh token of `user0` confirms (setting `confirmed`,
staging the row, not committing), and a token signed with a different key
is rejected with the user unchanged. -/
theorem claim_C3_confirm_token_bimodal_witness :
    User.confirm_token user0 cfg0 5 (User.confirmation_token user0 cfg0 0) session0 =
      (Except.ok (true, { user0 with confirmed := true }),
       closeSession (sessionAddUser user0.user_uid session0)) ∧
    User.confirm_token user0 cfg0 5
        { payload := { confirm := "uid1" }, issued := 0, signedWith := "other" } session0 =
      (Except.ok (false, user0), closeSession session0) ∧
    (User.confirm_token user0 cfg0 5 (User.confirmation_token user0 cfg0 0) session0).2.commits =
      session0.commits :=
  ⟨(claim_C3_confirm_token_bimodal cfg0 30 5 user0
      (User.confirmation_token user0 cfg0 0) session0 rfl).2.1 (by decide),
   (claim_C3_confirm_token_bimodal cfg0 30 5 user0
      { payload := { confirm := "uid1" }, issued := 0, signedWith := "other" } session0 rfl).2.2.1
      (by decide),
   (claim_C3_confirm_token_bimodal cfg0 30 5 user0
      (User.confirmation_token user0 cfg0 0) session0 rfl).2.2.2⟩

/-- C10: when `CONFIRMATION_LINK_TIMEOUT` is absent from the
configuration, `confirm_token` raises a `TypeError` (from `None * 60`)
for every input token, before any token verification, instead of
returning false; the exception escapes the session scope, which rolls
back and closes. -/
theorem claim_C10_missing_timeout_raises (cfg : Config) (now : Nat)
    (self : User) (token : ConfToken) (s : Session)
    (hcfg : cfg.confirmationLinkTimeout = none) :
    User.confirm_token self cfg now token s =
      (Except.error PyError.typeError, closeSession (rollbackSession s)) := by
  have h := confirm_token_eq self cfg now token s
  rw [hcfg] at h
  exact h

/-- C10 witness: with the key absent, even a perfectly valid fresh token
makes `confirm_token` raise `TypeError`. -/
theorem claim_C10_missing_timeout_raises_witness :
    User.confirm_token user0 cfgMissing 0 (User.confirmation_token user0 cfgMissing 0) session0 =
      (Except.error PyError.typeError, closeSession (rollbackSession session0)) :=
  claim_C10_missing_timeout_raises cfgMissing 0 user0
    (User.confirmation_token user0 cfgMissing 0) session0 rfl

/-- C4: a reset token issued at `now` with timeout `t` minutes verifies
to the original `user_uid` at any instant strictly before `now + t * 60`
seconds; strictly after the window it raises `ExpiredSignatureError`; and
any token whose signature does not verify against the application secret
raises `InvalidSignatureError` (never returning a fallback value). -/
theorem claim_C4_reset_token_window (cfg : Config) (now now2 t : Nat)
    (self : User) (token : ResetToken) :
    (now2 < now + t * 60 →
      User.verify_reset_token cfg now2 (User.get_reset_token self cfg now t) =
        Except.ok self.user_uid) ∧
    (now + t * 60 < now2 →
      User.verify_reset_token cfg now2 (User.get_reset_token self cfg now t) =
        Except.error JwtError.expiredSignature) ∧
    (token.signedWith ≠ cfg.secretKey →
      User.verify_reset_token cfg now2 token =
        Except.error JwtError.invalidSignature) := by
  refine ⟨fun hlt => ?_, fun hgt => ?_, fun hkey => ?_⟩
  · simp [User.verify_reset_token, User.get_reset_token, jwt_encode, jwt_decode,
      Except.map, Nat.not_lt.mpr (Nat.le_of_lt hlt)]
  · simp [User.verify_reset_token, User.get_reset_token, jwt_encode, jwt_decode,
      Except.map, hgt]
  · simp [User.verify_reset_token, jwt_decode, Except.map, hkey]

/-- C4 witness: a 5-minute token issued at instant 100 verifies at
instant 150, raises expired at instant 500, and a token signed with a
different key raises invalid-signature. -/
theorem claim_C4_reset_token_window_witness :
    User.verify_reset_token cfg0 150 (User.get_reset_token user0 cfg0 100 5) =
      Except.ok user0.user_uid ∧
    User.verify_reset_token cfg0 500 (User.get_reset_token user0 cfg0 100 5) =
      Except.error JwtError.expiredSignature ∧
    User.verify_reset_token cfg0 150
        { reset_password := "uid1", exp := 1000, signedWith := "other" } =
      Except.error JwtError.invalidSignature :=
  ⟨(claim_C4_reset_token_window cfg0 100 150 5 user0
      { reset_password := "uid1", exp := 1000, signedWith := "other" }).1 (by decide),
   (claim_C4_reset_token_window cfg0 100 500 5 user0
      { reset_password := "uid1", exp := 1000, signedWith := "other" }).2.1 (by decide),
   (claim_C4_reset_token_window cfg0 100 150 5 user0
      { reset_password := "uid1", exp := 1000, signedWith := "other" }).2.2 (by decide)⟩

/-- C7: reading the `password` property always raises `AttributeError`,
both on a fresh user and after any assignment to the property; it never
returns a string value. -/
theorem claim_C7_password_read_raises (u : User) (p : String) :
    User.password_get u = Except.error PyError.attributeError ∧
    User.password_get (User.password_set u p) = Except.error PyError.attributeError := by
  exact ⟨rfl, rfl⟩

/-- C9: `get_id` returns exactly the `user_uid` field, for every user. -/
theorem claim_C9_get_id (u : User) : User.get_id u = u.user_uid := rfl

/-- C6: for every body run inside `db_session_manager`: a raising body
has its session rolled back and the original exception propagated
unchanged; a normal body propagates its result; on both paths the
session is closed when `session_close` is true (the source's default),
and when it is false the manager itself closes nothing (the closed flag
is exactly the body's). -/
theorem claim_C6_session_manager {α : Type} (sc : Bool)
    (body : Session → Except PyError α × Session) (s : Session) :
    (∀ e s1, body s = (Except.error e, s1) →
      db_session_manager sc body s =
        (Except.error e, if sc then closeSession (rollbackSession s1)
                         else rollbackSession s1)) ∧
    (∀ a s1, body s = (Except.ok a, s1) →
      db_session_manager sc body s = (Except.ok a, if sc then closeSession s1 else s1)) ∧
    (sc = true → (db_session_manager sc body s).2.closed = true) ∧
    (sc = false → (db_session_manager sc body s).2.closed = (body s).2.closed) := by
  refine ⟨fun e s1 hb => ?_, fun a s1 hb => ?_, fun hsc => ?_, fun hsc => ?_⟩
  · simp [db_session_manager, hb]
  · simp [db_session_manager, hb]
  · subst hsc
    simp [db_session_manager, closeSession]
  · subst hsc
    cases hb : body s with
    | mk r s1 =>
      cases r with
      | error e => simp [db_session_manager, hb, rollbackSession]
      | ok a => simp [db_session_manager, hb]

/-- C6 witness: a concrete raising body is rolled back, closed (default
close) and its `TypeError` propagates unchanged; with `session_close`
false a concrete normal body leaves the session unclosed. -/
theorem claim_C6_session_manager_witness :
    db_session_manager true
        (fun s => ((Except.error PyError.typeError : Except PyError Unit),
                   sessionAddUser "x" s)) session0 =
      (Except.error PyError.typeError,
       closeSession (rollbackSession (sessionAddUser "x" session0))) ∧
    (db_session_manager false
        (fun s => ((Except.ok () : Except PyError Unit), s)) session0).2.closed = false :=
  ⟨(claim_C6_session_manager true
      (fun s => ((Except.error PyError.typeError : Except PyError Unit),
        sessionAddUser "x" s)) session0).1 PyError.typeError
      (sessionAddUser "x" session0) rfl,
   (claim_C6_session_manager false
      (fun s => ((Except.ok () : Except PyError Unit), s)) session0).2.2.2 rfl⟩

/-- C8 (code bug): both `updated` columns pass
`onupdate=datetime.now(tz=timezone.utc)` already evaluated, so an update
flushed at mutation time 5000 on a module imported at time 1000 stores
the import-time constant 1000 into `updated`, not the mutation time. -/
theorem claim_C8_updated_fixed_timestamp :
    updatedColumnOnUpdate 1000 5000 = 1000 ∧
    decide (updatedColumnOnUpdate 1000 5000 = 5000) = false := by
  exact ⟨rfl, by decide⟩

/-- C5: starting from an empty role table, one run of
`initialize_role_table` produces exactly the three canonical rows named
"user", "editor", "admin" with bitmasks 1, 3, 7 forming a strict
bit-subset chain, and commits exactly once; a second run — even after the
descriptions and bitmasks of the existing rows were arbitrarily altered —
restores the canonical descriptions and bitmasks while keeping the
pre-existing `role_uid` and `name` of every row (the second run's fresh
uids `v1 v2 v3` are discarded), again with a single commit. -/
theorem claim_C5_role_table_idempotent_upsert
    (u1 u2 u3 v1 v2 v3 d1 d2 d3 : String) (p1 p2 p3 : Nat)
    (su : List String) (c : Nat) (rb cl : Bool) :
    (Role.initialize_role_table u1 u2 u3
        { roleRows := [], stagedUsers := su, commits := c,
          rolledBack := rb, closed := cl }).2.roleRows = canonicalRoleRows u1 u2 u3 ∧
    (Role.initialize_role_table u1 u2 u3
        { roleRows := [], stagedUsers := su, commits := c,
          rolledBack := rb, closed := cl }).2.commits = c + 1 ∧
    (Role.initialize_role_table v1 v2 v3
        { roleRows := [⟨u1, "user", d1, p1⟩, ⟨u2, "editor", d2, p2⟩,
                       ⟨u3, "admin", d3, p3⟩],
          stagedUsers := su, commits := c, rolledBack := rb,
          closed := cl }).2.roleRows = canonicalRoleRows u1 u2 u3 ∧
    (Role.initialize_role_table v1 v2 v3
        { roleRows := [⟨u1, "user", d1, p1⟩, ⟨u2, "editor", d2, p2⟩,
                       ⟨u3, "admin", d3, p3⟩],
          stagedUsers := su, commits := c, rolledBack := rb,
          closed := cl }).2.commits = c + 1 ∧
    (canonicalRoleRows u1 u2 u3).map RoleRow.name = ["user", "editor", "admin"] ∧
    (canonicalRoleRows u1 u2 u3).map RoleRow.raw_permissions = [1, 3, 7] ∧
    ((1 : Nat) &&& 3 = 1 ∧ (1 : Nat) < 3 ∧ (3 : Nat) &&& 7 = 3 ∧ (3 : Nat) < 7) := by
  refine ⟨rfl, rfl, rfl, rfl, rfl, rfl, by decide⟩
